import Mathlib

/-!
Verification of the clipcat core: the selection monitor (src/monitor.rs)
and the file-backed history store (src/bin/clipcatd/history/fs.rs).

Shallow embedding conventions:
* Rust byte strings (`String` compared via `as_bytes`, measured via `len`)
  are modelled as `List Nat` of their bytes.
* The history record type `ClipboardData` is opaque to the store; the
  embedding is parametric in a record type `Rec` together with the
  bincode codec for a single record.
* bincode (version 1, default configuration, as invoked through
  `bincode::serialize_into` / `bincode::deserialize_from`) encodes a
  `Vec<T>` as a fixed 8-byte little-endian `u64` length followed by the
  encodings of the elements in order, and encodes a struct as the
  concatenation of the encodings of its fields with no header.
* Fallible external effects (file system, the bincode serializer writing
  into a file handle) are modelled by explicit state and outcome values.
-/

/-- Byte sequences: the contents of the backing file. -/
abbrev Bytes := List Nat

/-- Selection contents as UTF-8 bytes (Rust `String`, compared with
`as_bytes` and measured with `len` in monitor.rs). -/
abbrev Content := List Nat

namespace History

/-- Modelled from the spec: error taxonomy of the history store
(`IoError` for read/write failures, `SerializationError` for
encode/decode failures); the `error` module itself is outside src/. -/
inductive HistoryError where
  | IoError
  | SerializationError
deriving DecidableEq, Repr

/-- State of the backing resource at the store's path: absent (no file),
present with given byte contents, or inaccessible (any I/O failure other
than not-found when opening). -/
inductive FileState where
  | absent
  | present (content : Bytes)
  | inaccessible
deriving DecidableEq, Repr

/-- Outcome of the external `bincode::serialize_into` call on an open
file: either the full encoding was written, or the serializer failed
after writing some (possibly empty) sequence of bytes. -/
inductive SerResult where
  | ok (bytes : Bytes)
  | fail (written : Bytes)
deriving DecidableEq, Repr

/-- The bincode codec for one history record (`ClipboardData`), opaque
to the store: an encoder to bytes and a streaming decoder returning the
record and the remaining bytes. -/
structure RecCodec (Rec : Type) where
  enc : Rec → Bytes
  dec : Bytes → Option (Rec × Bytes)

/-- A codec is well-formed when decoding undoes encoding and leaves the
rest of the stream untouched. -/
def RecCodec.LeftInv {Rec : Type} (c : RecCodec Rec) : Prop :=
  ∀ (x : Rec) (rest : Bytes), c.dec (c.enc x ++ rest) = some (x, rest)

/-- Fixed 8-byte little-endian encoding of a `u64` (bincode's default
length representation). -/
def u64le (n : Nat) : Bytes :=
  [n % 256, n / 256 % 256, n / 65536 % 256, n / 16777216 % 256,
   n / 4294967296 % 256, n / 1099511627776 % 256,
   n / 281474976710656 % 256, n / 72057594037927936 % 256]

/-- Read a fixed 8-byte little-endian `u64` from the front of a stream. -/
def decodeU64le : Bytes → Option (Nat × Bytes)
  | b0 :: b1 :: b2 :: b3 :: b4 :: b5 :: b6 :: b7 :: rest =>
      some (b0 + 256 * (b1 + 256 * (b2 + 256 * (b3 + 256 * (b4 + 256 *
        (b5 + 256 * (b6 + 256 * b7)))))), rest)
  | _ => none

/-- Decode exactly `n` records from the front of a stream. -/
def decodeN {Rec : Type} (dec : Bytes → Option (Rec × Bytes)) :
    Nat → Bytes → Option (List Rec × Bytes)
  | 0, b => some ([], b)
  | n + 1, b =>
    match dec b with
    | some (x, rest) =>
      match decodeN dec n rest with
      | some (xs, rest2) => some (x :: xs, rest2)
      | none => none
    | none => none

/-- bincode encoding of `Vec<Rec>`: u64 length, then the elements. -/
def encodeVec {Rec : Type} (enc : Rec → Bytes) (xs : List Rec) : Bytes :=
  u64le xs.length ++ (xs.map enc).flatten

/-- bincode decoding of `Vec<Rec>`: read the u64 length, then that many
elements (this is what `load` deserializes, a bare `Vec<ClipboardData>`). -/
def decodeVec {Rec : Type} (dec : Bytes → Option (Rec × Bytes))
    (b : Bytes) : Option (List Rec × Bytes) :=
  match decodeU64le b with
  | some (n, rest) => decodeN dec n rest
  | none => none

/-- bincode encoding of the wrapper `struct FileContents { data: Vec<Rec> }`
written by `write`: a struct encodes as the concatenation of its fields
with no header, so with a single field this is exactly the encoding of
the bare vector. -/
def encodeFileContents {Rec : Type} (enc : Rec → Bytes) (xs : List Rec) :
    Bytes :=
  encodeVec enc xs

/-- The serializer outcome of an honest `bincode::serialize_into` on the
wrapper struct: the full encoding is written. -/
def defaultSer {Rec : Type} (c : RecCodec Rec) (xs : List Rec) : SerResult :=
  SerResult.ok (encodeFileContents c.enc xs)

namespace SimpleDBDriver

/-- SimpleDBDriver::write: open the path with create+write (fails with
`IoError` when the path is inaccessible; creates the file when absent),
`set_len(0)` truncates it, then `bincode::serialize_into` encodes the
new `FileContents` in place. The serializer outcome `ser` is the result
of that external call on the data being written: on success the file
holds the full encoding; on failure the call returns
`SerializationError` with the file left holding only the bytes written
before the failure (the pre-truncation contents are gone). -/
def write (fs : FileState) (ser : SerResult) :
    FileState × Except HistoryError Unit :=
  match fs with
  | FileState.inaccessible => (FileState.inaccessible, Except.error HistoryError.IoError)
  | _ =>
    match ser with
    | SerResult.ok b => (FileState.present b, Except.ok ())
    | SerResult.fail p => (FileState.present p, Except.error HistoryError.SerializationError)

/-- SimpleDBDriver::load: `File::open`; a not-found error yields the
empty vector, any other open error is `IoError`; otherwise
`bincode::deserialize_from` decodes a bare `Vec<ClipboardData>` from the
front of the file (trailing bytes are not read), a decode failure being
`SerializationError`. -/
def load {Rec : Type} (c : RecCodec Rec) (fs : FileState) :
    Except HistoryError (List Rec) :=
  match fs with
  | FileState.absent => Except.ok []
  | FileState.inaccessible => Except.error HistoryError.IoError
  | FileState.present b =>
    match decodeVec c.dec b with
    | some (data, _) => Except.ok data
    | none => Except.error HistoryError.SerializationError

/-- SimpleDBDriver::save: load the existing records, push a clone of
each element of `data` in order, write the result. -/
def save {Rec : Type} (c : RecCodec Rec) (ser : List Rec → SerResult)
    (fs : FileState) (data : List Rec) :
    FileState × Except HistoryError Unit :=
  match load c fs with
  | Except.error e => (fs, Except.error e)
  | Except.ok saved => write fs (ser (saved ++ data))

/-- SimpleDBDriver::clear: write the empty vector (no load step). -/
def clear {Rec : Type} (ser : List Rec → SerResult) (fs : FileState) :
    FileState × Except HistoryError Unit :=
  write fs (ser [])

/-- SimpleDBDriver::put: load the existing records, push a clone of the
one record, write the result. -/
def put {Rec : Type} (c : RecCodec Rec) (ser : List Rec → SerResult)
    (fs : FileState) (data : Rec) :
    FileState × Except HistoryError Unit :=
  match load c fs with
  | Except.error e => (fs, Except.error e)
  | Except.ok saved => write fs (ser (saved ++ [data]))

/-- SimpleDBDriver::shrink_to: load the existing records, compute
`to_shrink = saved.len().saturating_sub(min_capacity)` (natural
subtraction) and remove the front element `to_shrink` times — i.e. drop
the first `to_shrink` elements — then write the result. -/
def shrink_to {Rec : Type} (c : RecCodec Rec) (ser : List Rec → SerResult)
    (fs : FileState) (min_capacity : Nat) :
    FileState × Except HistoryError Unit :=
  match load c fs with
  | Except.error e => (fs, Except.error e)
  | Except.ok saved => write fs (ser (List.drop (saved.length - min_capacity) saved))

/-- File state holding exactly the honest encoding of `xs`. -/
def storing {Rec : Type} (c : RecCodec Rec) (xs : List Rec) : FileState :=
  FileState.present (encodeFileContents c.enc xs)

end SimpleDBDriver

/-- The concrete codec used by witnesses: a record is one byte. -/
def natCodec : RecCodec Nat where
  enc x := [x]
  dec b :=
    match b with
    | x :: rest => some (x, rest)
    | [] => none

end History

namespace Monitor

/-- Modelled from the spec: SelectionKind / `ClipboardType`, the enum
naming the two watched selections; its definition lives outside src/. -/
inductive ClipboardType where
  | Clipboard
  | Primary
deriving DecidableEq, Repr

/-- Modelled from the spec: `MonitorState`, the derived read-only view
of the shared run flag; its definition lives outside src/. -/
inductive MonitorState where
  | Enabled
  | Disabled
deriving DecidableEq, Repr

/-- Modelled from the spec: `ClipboardChangeEvent` is
`{selection: SelectionKind, content: text}`; the `ClipboardEvent`
constructors `new_clipboard` / `new_primary` live outside src/. -/
structure ClipboardEvent where
  selection : ClipboardType
  content : Content
deriving DecidableEq, Repr

/-- Modelled from the spec: `ClipboardEvent::new_clipboard(data)`. -/
def ClipboardEvent.new_clipboard (data : Content) : ClipboardEvent :=
  { selection := ClipboardType.Clipboard, content := data }

/-- Modelled from the spec: `ClipboardEvent::new_primary(data)`. -/
def ClipboardEvent.new_primary (data : Content) : ClipboardEvent :=
  { selection := ClipboardType.Primary, content := data }

/-- The `send_event` closure of build_thread: wrap `data` in an event
tagged with this watcher's selection kind. -/
def send_event (clipboard_type : ClipboardType) (data : Content) :
    ClipboardEvent :=
  match clipboard_type with
  | ClipboardType.Clipboard => ClipboardEvent.new_clipboard data
  | ClipboardType.Primary => ClipboardEvent.new_primary data

/-- ClipboardError (src/error.rs), payloads elided. -/
inductive ClipboardError where
  | SpawnBlockingTask
  | InitializeX11Clipboard
  | PasteToX11Clipboard
deriving DecidableEq, Repr

/-- ClipboardMonitorOptions (monitor.rs). -/
structure ClipboardMonitorOptions where
  load_current : Bool
  enable_clipboard : Bool
  enable_primary : Bool
  filter_min_size : Nat
deriving DecidableEq, Repr

/-- Default for ClipboardMonitorOptions (monitor.rs). -/
def ClipboardMonitorOptions.default : ClipboardMonitorOptions :=
  { load_current := true, enable_clipboard := true, enable_primary := true,
    filter_min_size := 0 }

/-- ClipboardMonitor: the shared run flag and the two optional watcher
thread handles (the event sender is held by subscribers and elided; a
thread handle is opaque). -/
structure ClipboardMonitor where
  is_running : Bool
  clipboard_thread : Option Unit
  primary_thread : Option Unit
deriving DecidableEq, Repr

/-- Fallible part of build_thread before the thread is spawned: the
backend construction `get_clipboard` (an external capability whose
success is the parameter `initOk`); on failure the error is wrapped as
`InitializeX11Clipboard`, on success a join handle is returned. -/
def build_thread (initOk : Bool) : Except ClipboardError Unit :=
  if initOk then Except.ok () else Except.error ClipboardError.InitializeX11Clipboard

/-- ClipboardMonitor::new: the run flag starts true; a watcher thread is
built for each enabled selection kind, each construction failure
propagating as the error of `new`. `clipboardInitOk` / `primaryInitOk`
are the outcomes of the two external backend constructions. -/
def ClipboardMonitor.new (opts : ClipboardMonitorOptions)
    (clipboardInitOk primaryInitOk : Bool) :
    Except ClipboardError ClipboardMonitor :=
  let monitor : ClipboardMonitor :=
    { is_running := true, clipboard_thread := none, primary_thread := none }
  match (if opts.enable_clipboard then
          (build_thread clipboardInitOk).map some else Except.ok none) with
  | Except.error e => Except.error e
  | Except.ok ct =>
    match (if opts.enable_primary then
            (build_thread primaryInitOk).map some else Except.ok none) with
    | Except.error e => Except.error e
    | Except.ok pt =>
      Except.ok { monitor with clipboard_thread := ct, primary_thread := pt }

/-- ClipboardMonitor::enable: store true into the shared flag; nothing
else changes. -/
def ClipboardMonitor.enable (m : ClipboardMonitor) : ClipboardMonitor :=
  { m with is_running := true }

/-- ClipboardMonitor::disable: store false into the shared flag; nothing
else changes. -/
def ClipboardMonitor.disable (m : ClipboardMonitor) : ClipboardMonitor :=
  { m with is_running := false }

/-- ClipboardMonitor::toggle. -/
def ClipboardMonitor.toggle (m : ClipboardMonitor) : ClipboardMonitor :=
  if m.is_running then m.disable else m.enable

/-- ClipboardMonitor::state: derived from the flag. -/
def ClipboardMonitor.state (m : ClipboardMonitor) : MonitorState :=
  if m.is_running then MonitorState.Enabled else MonitorState.Disabled

/-- Startup of the watcher thread body (monitor.rs lines 154-170): when
`load_current` is set, the synchronous `clipboard.load()` result
`initRead` determines the initial tracked `last` value and a possible
immediate publish. On `Ok(data)`, the event is sent only when
`data.len() > filter_min_size`, and `last` is initialized to `data` in
either case; on `Err`, and when `load_current` is unset, `last` starts
as the empty string. Returns (initial last, published event if any). -/
def initLast (load_current : Bool) (initRead : Except Unit Content)
    (clipboard_type : ClipboardType) (filter_min_size : Nat) :
    Content × Option ClipboardEvent :=
  if load_current then
    match initRead with
    | Except.ok data =>
      if data.length > filter_min_size then
        (data, some (send_event clipboard_type data))
      else
        (data, none)
    | Except.error _ => ([], none)
  else
    ([], none)

/-- One iteration of the watcher loop body (monitor.rs lines 172-185) on
a successful `load_wait` returning `curr`, with `running` the value read
from the shared flag: when the flag is set, `curr.len()` strictly
exceeds `filter_min_size` and `curr`'s bytes differ from `last`'s, the
code calls `send_event(&last)` — the previously tracked value — and
`last` is not reassigned anywhere in the loop. Returns (new last,
published event if any). -/
def loopStep (clipboard_type : ClipboardType) (filter_min_size : Nat)
    (running : Bool) (last curr : Content) :
    Content × Option ClipboardEvent :=
  if running ∧ curr.length > filter_min_size ∧ last ≠ curr then
    (last, some (send_event clipboard_type last))
  else
    (last, none)

/-- Run the watcher loop over a finite trace of successful `load_wait`
deliveries, each paired with the flag value read at that iteration;
collects the published events in order. -/
def runLoop (clipboard_type : ClipboardType) (filter_min_size : Nat) :
    List (Bool × Content) → Content → Content × List ClipboardEvent
  | [], last => (last, [])
  | (running, curr) :: rest, last =>
    match loopStep clipboard_type filter_min_size running last curr with
    | (last2, ev) =>
      match runLoop clipboard_type filter_min_size rest last2 with
      | (lastF, evs) => (lastF, ev.toList ++ evs)

end Monitor

/-! Helper lemmas about the bincode model. -/

open History

theorem decodeU64le_u64le (n : Nat) (rest : Bytes) (h : n < 2 ^ 64) :
    decodeU64le (u64le n ++ rest) = some (n, rest) := by
  have key : n % 256 + 256 * (n / 256 % 256 + 256 * (n / 65536 % 256 + 256 *
      (n / 16777216 % 256 + 256 * (n / 4294967296 % 256 + 256 *
      (n / 1099511627776 % 256 + 256 * (n / 281474976710656 % 256 + 256 *
      (n / 72057594037927936 % 256))))))) = n := by omega
  show some (_, rest) = some (n, rest)
  rw [key]

theorem decodeN_encode {Rec : Type} (c : RecCodec Rec) (h : c.LeftInv) :
    ∀ (xs : List Rec) (rest : Bytes),
      decodeN c.dec xs.length ((xs.map c.enc).flatten ++ rest) = some (xs, rest) := by
  intro xs
  induction xs with
  | nil => intro rest; simp [decodeN]
  | cons x tl ih =>
    intro rest
    simp only [List.map_cons, List.flatten_cons, List.length_cons,
      List.append_assoc, decodeN]
    rw [h x ((tl.map c.enc).flatten ++ rest)]
    dsimp only
    rw [ih rest]

theorem decodeVec_encodeFileContents {Rec : Type} (c : RecCodec Rec)
    (h : c.LeftInv) (xs : List Rec) (hlen : xs.length < 2 ^ 64) :
    decodeVec c.dec (encodeFileContents c.enc xs) = some (xs, []) := by
  unfold encodeFileContents encodeVec decodeVec
  rw [decodeU64le_u64le xs.length _ hlen]
  rw [← List.append_nil ((xs.map c.enc).flatten)]
  exact decodeN_encode c h xs []

theorem load_storing {Rec : Type} (c : RecCodec Rec) (h : c.LeftInv)
    (xs : List Rec) (hlen : xs.length < 2 ^ 64) :
    SimpleDBDriver.load c (SimpleDBDriver.storing c xs) = Except.ok xs := by
  unfold SimpleDBDriver.storing SimpleDBDriver.load
  dsimp only
  rw [decodeVec_encodeFileContents c h xs hlen]

theorem natCodec_leftInv : natCodec.LeftInv := by
  intro x rest
  rfl


/-! Claim theorems about the history store. -/

/-- C5: load() against a path where no backing resource exists returns
the empty sequence and succeeds, never an error for the absent-file
case; an I/O failure of any other kind when opening is surfaced as
IoError. -/
theorem C5_load_absent_empty {Rec : Type} (c : RecCodec Rec) :
    SimpleDBDriver.load c FileState.absent = Except.ok ([] : List Rec) ∧
    SimpleDBDriver.load c FileState.inaccessible =
      (Except.error HistoryError.IoError : Except HistoryError (List Rec)) :=
  ⟨rfl, rfl⟩

/-- C9: the wrapper container written by write (a struct whose single
field is the record vector) decodes, under the bare-vector decoding used
by load, back to the same sequence, so write of xs followed by load
returns exactly xs. -/
theorem C9_write_load_roundtrip {Rec : Type} (c : RecCodec Rec)
    (h : c.LeftInv) (xs : List Rec) (hlen : xs.length < 2 ^ 64)
    (fs : FileState) (hfs : fs ≠ FileState.inaccessible) :
    decodeVec c.dec (encodeFileContents c.enc xs) = some (xs, []) ∧
    SimpleDBDriver.load c (SimpleDBDriver.write fs (defaultSer c xs)).1 =
      Except.ok xs := by
  refine ⟨decodeVec_encodeFileContents c h xs hlen, ?_⟩
  have hw : (SimpleDBDriver.write fs (defaultSer c xs)).1 =
      SimpleDBDriver.storing c xs := by
    cases fs with
    | absent => rfl
    | present b => rfl
    | inaccessible => exact absurd rfl hfs
  rw [hw]
  exact load_storing c h xs hlen

/-- Witness for C9 at a concrete two-record store. -/
theorem C9_witness :
    decodeVec natCodec.dec (encodeFileContents natCodec.enc [3, 5]) =
      some ([3, 5], []) ∧
    SimpleDBDriver.load natCodec
      (SimpleDBDriver.write FileState.absent (defaultSer natCodec [3, 5])).1 =
      Except.ok [3, 5] :=
  C9_write_load_roundtrip natCodec natCodec_leftInv [3, 5] (by norm_num)
    FileState.absent (by decide)

/-- C4: save appends every element of new_records in order after the
existing stored sequence; put behaves as save of the singleton; from an
empty store, put r1 then put r2 then load returns [r1, r2]. -/
theorem C4_save_appends {Rec : Type} (c : RecCodec Rec)
    (h : c.LeftInv) (xs newData : List Rec)
    (hxs : xs.length < 2 ^ 64) (r1 r2 : Rec) :
    SimpleDBDriver.save c (defaultSer c) (SimpleDBDriver.storing c xs) newData =
      (SimpleDBDriver.storing c (xs ++ newData), Except.ok ()) ∧
    (∀ (ser : List Rec → SerResult) (fs : FileState) (r : Rec),
      SimpleDBDriver.put c ser fs r = SimpleDBDriver.save c ser fs [r]) ∧
    SimpleDBDriver.load c
      (SimpleDBDriver.put c (defaultSer c)
        (SimpleDBDriver.put c (defaultSer c) FileState.absent r1).1 r2).1 =
      Except.ok [r1, r2] := by
  refine ⟨?_, ?_, ?_⟩
  · unfold SimpleDBDriver.save
    rw [load_storing c h xs hxs]
    rfl
  · intro ser fs r
    unfold SimpleDBDriver.put SimpleDBDriver.save
    cases SimpleDBDriver.load c fs with
    | error e => rfl
    | ok saved => rfl
  · have h1 : (SimpleDBDriver.put c (defaultSer c) FileState.absent r1).1 =
        SimpleDBDriver.storing c [r1] := rfl
    rw [h1]
    have h2 : (SimpleDBDriver.put c (defaultSer c)
        (SimpleDBDriver.storing c [r1]) r2).1 = SimpleDBDriver.storing c [r1, r2] := by
      unfold SimpleDBDriver.put
      rw [load_storing c h [r1] (by norm_num)]
      rfl
    rw [h2]
    exact load_storing c h [r1, r2] (by norm_num)

/-- Witness for C4 at concrete records. -/
theorem C4_witness :
    SimpleDBDriver.save natCodec (defaultSer natCodec)
        (SimpleDBDriver.storing natCodec [7]) [8, 9] =
      (SimpleDBDriver.storing natCodec [7, 8, 9], Except.ok ()) ∧
    (∀ (ser : List Nat → SerResult) (fs : FileState) (r : Nat),
      SimpleDBDriver.put natCodec ser fs r =
        SimpleDBDriver.save natCodec ser fs [r]) ∧
    SimpleDBDriver.load natCodec
      (SimpleDBDriver.put natCodec (defaultSer natCodec)
        (SimpleDBDriver.put natCodec (defaultSer natCodec)
          FileState.absent 1).1 2).1 =
      Except.ok [1, 2] :=
  C4_save_appends natCodec natCodec_leftInv [7] [8, 9] (by norm_num) 1 2

/-- C3: shrink_to persists the suffix obtained by dropping elements from
the front when the length exceeds min_capacity (the persisted suffix
then has length exactly min_capacity), and persists the sequence
unchanged when the length is at most min_capacity; in particular from
[r1, r2, r3], shrink_to 1 yields [r3] and shrink_to 10 leaves the three
elements unchanged. -/
theorem C3_shrink_to_drops_front {Rec : Type} (c : RecCodec Rec)
    (h : c.LeftInv) (xs : List Rec) (m : Nat) (hxs : xs.length < 2 ^ 64)
    (r1 r2 r3 : Rec) :
    SimpleDBDriver.shrink_to c (defaultSer c) (SimpleDBDriver.storing c xs) m =
      (SimpleDBDriver.storing c (xs.drop (xs.length - m)), Except.ok ()) ∧
    (xs.length ≤ m → xs.drop (xs.length - m) = xs) ∧
    (m ≤ xs.length → (xs.drop (xs.length - m)).length = m) ∧
    SimpleDBDriver.shrink_to c (defaultSer c)
        (SimpleDBDriver.storing c [r1, r2, r3]) 1 =
      (SimpleDBDriver.storing c [r3], Except.ok ()) ∧
    SimpleDBDriver.shrink_to c (defaultSer c)
        (SimpleDBDriver.storing c [r1, r2, r3]) 10 =
      (SimpleDBDriver.storing c [r1, r2, r3], Except.ok ()) := by
  refine ⟨?_, ?_, ?_, ?_, ?_⟩
  · unfold SimpleDBDriver.shrink_to
    rw [load_storing c h xs hxs]
    rfl
  · intro hm
    rw [Nat.sub_eq_zero_of_le hm, List.drop_zero]
  · intro hm
    rw [List.length_drop]
    omega
  · unfold SimpleDBDriver.shrink_to
    rw [load_storing c h [r1, r2, r3] (by norm_num)]
    rfl
  · unfold SimpleDBDriver.shrink_to
    rw [load_storing c h [r1, r2, r3] (by norm_num)]
    rfl

/-- Witness for C3 at concrete records. -/
theorem C3_witness :
    SimpleDBDriver.shrink_to natCodec (defaultSer natCodec)
        (SimpleDBDriver.storing natCodec [4, 5, 6]) 1 =
      (SimpleDBDriver.storing natCodec
        (([4, 5, 6] : List Nat).drop (([4, 5, 6] : List Nat).length - 1)),
       Except.ok ()) ∧
    (([4, 5, 6] : List Nat).length ≤ 1 →
      ([4, 5, 6] : List Nat).drop (([4, 5, 6] : List Nat).length - 1) = [4, 5, 6]) ∧
    (1 ≤ ([4, 5, 6] : List Nat).length →
      (([4, 5, 6] : List Nat).drop (([4, 5, 6] : List Nat).length - 1)).length = 1) ∧
    SimpleDBDriver.shrink_to natCodec (defaultSer natCodec)
        (SimpleDBDriver.storing natCodec [4, 5, 6]) 1 =
      (SimpleDBDriver.storing natCodec [6], Except.ok ()) ∧
    SimpleDBDriver.shrink_to natCodec (defaultSer natCodec)
        (SimpleDBDriver.storing natCodec [4, 5, 6]) 10 =
      (SimpleDBDriver.storing natCodec [4, 5, 6], Except.ok ()) :=
  C3_shrink_to_drops_front natCodec natCodec_leftInv [4, 5, 6] 1 (by norm_num) 4 5 6

/-- C6: the shared write path truncates the file and only then encodes;
it is not atomic: when the encode step fails after writing the byte
sequence p, write — and each of save, put, clear and shrink_to, whose
final step it is — returns SerializationError with the backing resource
left holding exactly p (empty or partially written), the pre-truncation
contents not restored. -/
theorem C6_write_truncates_not_atomic {Rec : Type} (c : RecCodec Rec)
    (h : c.LeftInv) (xs newData : List Rec) (hxs : xs.length < 2 ^ 64)
    (p : Bytes) (fs : FileState) (hfs : fs ≠ FileState.inaccessible)
    (r : Rec) (m : Nat) :
    SimpleDBDriver.write fs (SerResult.fail p) =
      (FileState.present p, Except.error HistoryError.SerializationError) ∧
    SimpleDBDriver.save c (fun _ => SerResult.fail p)
        (SimpleDBDriver.storing c xs) newData =
      (FileState.present p, Except.error HistoryError.SerializationError) ∧
    SimpleDBDriver.put c (fun _ => SerResult.fail p)
        (SimpleDBDriver.storing c xs) r =
      (FileState.present p, Except.error HistoryError.SerializationError) ∧
    SimpleDBDriver.clear (fun (_ : List Rec) => SerResult.fail p)
        (SimpleDBDriver.storing c xs) =
      (FileState.present p, Except.error HistoryError.SerializationError) ∧
    SimpleDBDriver.shrink_to c (fun _ => SerResult.fail p)
        (SimpleDBDriver.storing c xs) m =
      (FileState.present p, Except.error HistoryError.SerializationError) := by
  refine ⟨?_, ?_, ?_, ?_, ?_⟩
  · cases fs with
    | absent => rfl
    | present b => rfl
    | inaccessible => exact absurd rfl hfs
  · unfold SimpleDBDriver.save
    rw [load_storing c h xs hxs]
    rfl
  · unfold SimpleDBDriver.put
    rw [load_storing c h xs hxs]
    rfl
  · rfl
  · unfold SimpleDBDriver.shrink_to
    rw [load_storing c h xs hxs]
    rfl

/-- Witness for C6 at a concrete store and failing serializer. -/
theorem C6_witness :
    SimpleDBDriver.write FileState.absent (SerResult.fail [9]) =
      (FileState.present [9], Except.error HistoryError.SerializationError) ∧
    SimpleDBDriver.save natCodec (fun _ => SerResult.fail [9])
        (SimpleDBDriver.storing natCodec [1, 2]) [3] =
      (FileState.present [9], Except.error HistoryError.SerializationError) ∧
    SimpleDBDriver.put natCodec (fun _ => SerResult.fail [9])
        (SimpleDBDriver.storing natCodec [1, 2]) 3 =
      (FileState.present [9], Except.error HistoryError.SerializationError) ∧
    SimpleDBDriver.clear (fun (_ : List Nat) => SerResult.fail [9])
        (SimpleDBDriver.storing natCodec [1, 2]) =
      (FileState.present [9], Except.error HistoryError.SerializationError) ∧
    SimpleDBDriver.shrink_to natCodec (fun _ => SerResult.fail [9])
        (SimpleDBDriver.storing natCodec [1, 2]) 1 =
      (FileState.present [9], Except.error HistoryError.SerializationError) :=
  C6_write_truncates_not_atomic natCodec natCodec_leftInv [1, 2] [3]
    (by norm_num) [9] FileState.absent (by decide) 3 1

/-! Helper lemmas about the monitor model. -/

theorem send_event_content (ct : Monitor.ClipboardType) (d : Content) :
    (Monitor.send_event ct d).content = d := by
  cases ct <;> rfl

theorem loopStep_publish_eq (ct : Monitor.ClipboardType) (fms : Nat)
    (running : Bool) (last curr : Content) :
    Monitor.loopStep ct fms running last curr =
      (last,
       if running ∧ curr.length > fms ∧ last ≠ curr then
         some (Monitor.send_event ct last)
       else none) := by
  unfold Monitor.loopStep
  split <;> rfl

/-! Claim theorems about the monitor. -/

/-- C1: evaluation of the watcher loop at the failing input. With
filter_min_size 0, tracked last value initially empty and the flag
enabled throughout, delivering the distinct contents [97] then [98]
makes the code publish two events both carrying the stale previous
content [] — because the loop body calls send_event(&last) instead of
sending the freshly read value and never reassigns last — and the
tracked last value is still [] afterwards, where the claim requires the
events to carry [97] then [98] and the tracked value to follow them. -/
theorem C1_loop_publishes_stale_value :
    Monitor.runLoop Monitor.ClipboardType.Clipboard 0
        [(true, [97]), (true, [98])] [] =
      ([], [{ selection := Monitor.ClipboardType.Clipboard, content := [] },
            { selection := Monitor.ClipboardType.Clipboard, content := [] }]) :=
  rfl

/-- C2 counterexample: with load_current set, filter_min_size 5 and the
initial read succeeding with the two-byte content [97, 98] (length 2,
not exceeding 5), the code publishes nothing but initializes the tracked
last value to [97, 98] — not the empty string the claim requires for
this case. -/
theorem C2_counterexample :
    Monitor.initLast true (Except.ok [97, 98])
        Monitor.ClipboardType.Clipboard 5 = ([97, 98], none) ∧
    ([97, 98] : Content) ≠ [] :=
  ⟨rfl, by decide⟩

/-- C2 (amended): at watcher startup with load_current set, a
successfully read current content with byte length strictly greater than
filter_min_size is published immediately and becomes the tracked last
value; when the read succeeds with length at most filter_min_size,
nothing is published and the tracked last value starts as that read
content; when the read fails, or load_current is unset, nothing is
published and the tracked last value starts as the empty string. -/
theorem C2_initLast_amended (ct : Monitor.ClipboardType) (fms : Nat)
    (d : Content) (r : Except Unit Content) :
    (d.length > fms →
      Monitor.initLast true (Except.ok d) ct fms =
        (d, some (Monitor.send_event ct d))) ∧
    (¬ d.length > fms →
      Monitor.initLast true (Except.ok d) ct fms = (d, none)) ∧
    Monitor.initLast true (Except.error ()) ct fms = ([], none) ∧
    Monitor.initLast false r ct fms = ([], none) := by
  refine ⟨?_, ?_, rfl, rfl⟩
  · intro hd
    simp [Monitor.initLast, hd]
  · intro hd
    simp [Monitor.initLast, hd]

/-- Witness for C2 (amended): a six-byte read is published and tracked;
a two-byte read is tracked unpublished. -/
theorem C2_witness :
    Monitor.initLast true (Except.ok [97, 98, 99, 100, 101, 102])
        Monitor.ClipboardType.Clipboard 5 =
      ([97, 98, 99, 100, 101, 102],
       some (Monitor.send_event Monitor.ClipboardType.Clipboard
         [97, 98, 99, 100, 101, 102])) ∧
    Monitor.initLast true (Except.ok [97, 98])
        Monitor.ClipboardType.Primary 5 = ([97, 98], none) :=
  ⟨(C2_initLast_amended Monitor.ClipboardType.Clipboard 5
      [97, 98, 99, 100, 101, 102] (Except.ok [])).1 (by norm_num),
   (C2_initLast_amended Monitor.ClipboardType.Primary 5
      [97, 98] (Except.ok [])).2.1 (by norm_num)⟩

/-- C7: while the shared run flag is disabled a watcher never publishes
for any observed content; when the flag is enabled again, the next
observed content distinct from the tracked last value and longer than
filter_min_size produces an event; enable and disable (and toggle) only
set the flag and preserve both watcher thread handles. -/
theorem C7_flag_gates_publishing (ct : Monitor.ClipboardType) (fms : Nat)
    (last curr : Content) (m : Monitor.ClipboardMonitor) :
    (Monitor.loopStep ct fms false last curr).2 = none ∧
    (curr.length > fms → last ≠ curr →
      ((Monitor.loopStep ct fms true last curr).2).isSome = true) ∧
    m.enable.is_running = true ∧
    m.disable.is_running = false ∧
    m.enable.clipboard_thread = m.clipboard_thread ∧
    m.enable.primary_thread = m.primary_thread ∧
    m.disable.clipboard_thread = m.clipboard_thread ∧
    m.disable.primary_thread = m.primary_thread ∧
    m.toggle.clipboard_thread = m.clipboard_thread ∧
    m.toggle.primary_thread = m.primary_thread := by
  refine ⟨?_, ?_, rfl, rfl, rfl, rfl, rfl, rfl, ?_, ?_⟩
  · rw [loopStep_publish_eq]
    simp
  · intro hlen hne
    rw [loopStep_publish_eq]
    simp [hlen, hne]
  · unfold Monitor.ClipboardMonitor.toggle
    split <;> rfl
  · unfold Monitor.ClipboardMonitor.toggle
    split <;> rfl

/-- Witness for C7: an enabled watcher publishes on a fresh six-byte
content with filter_min_size 5. -/
theorem C7_witness :
    ((Monitor.loopStep Monitor.ClipboardType.Clipboard 5 true []
        [97, 98, 99, 100, 101, 102]).2).isSome = true :=
  (C7_flag_gates_publishing Monitor.ClipboardType.Clipboard 5 []
      [97, 98, 99, 100, 101, 102]
      { is_running := true, clipboard_thread := none, primary_thread := none }).2.1
    (by norm_num) (by decide)

/-- C8: a watcher publishes only when the observed content's byte length
strictly exceeds filter_min_size (the startup publish obeys the same
filter); content of length exactly filter_min_size produces no event;
with filter_min_size 5, the two-byte content "ab" never produces an
event, while a distinct six-byte content "abcdef" observed by an enabled
watcher does. -/
theorem C8_filter_min_size_strict (ct : Monitor.ClipboardType) (fms : Nat)
    (running : Bool) (last curr : Content) :
    (((Monitor.loopStep ct fms running last curr).2).isSome = true →
      curr.length > fms) ∧
    (curr.length = fms → (Monitor.loopStep ct fms running last curr).2 = none) ∧
    (Monitor.loopStep ct 5 running last [97, 98]).2 = none ∧
    (last ≠ [97, 98, 99, 100, 101, 102] →
      ((Monitor.loopStep ct 5 true last [97, 98, 99, 100, 101, 102]).2).isSome = true) ∧
    (∀ (lc : Bool) (r : Except Unit Content) (ev : Monitor.ClipboardEvent),
      (Monitor.initLast lc r ct fms).2 = some ev → ev.content.length > fms) := by
  refine ⟨?_, ?_, ?_, ?_, ?_⟩
  · rw [loopStep_publish_eq]
    split
    · next hc => exact fun _ => hc.2.1
    · intro hh
      simp at hh
  · intro he
    rw [loopStep_publish_eq]
    rw [if_neg]
    rintro ⟨-, h2, -⟩
    omega
  · rw [loopStep_publish_eq]
    rw [if_neg]
    rintro ⟨-, h2, -⟩
    simp at h2
  · intro hne
    rw [loopStep_publish_eq]
    rw [if_pos ⟨rfl, by norm_num, hne⟩]
    rfl
  · intro lc r ev hev
    cases lc with
    | false => simp [Monitor.initLast] at hev
    | true =>
      cases r with
      | error e => simp [Monitor.initLast] at hev
      | ok d =>
        by_cases hd : d.length > fms
        · simp only [Monitor.initLast, if_true, hd, if_pos] at hev
          injection hev with h2
          rw [← h2, send_event_content]
          exact hd
        · simp [Monitor.initLast, hd] at hev

/-- Witness for C8: concrete publications and suppressions with the
filter at 5 (and the startup filter at 0). -/
theorem C8_witness :
    ([97, 98, 99, 100, 101, 102] : Content).length > 5 ∧
    (Monitor.loopStep Monitor.ClipboardType.Clipboard 2 true [] [97, 98]).2 = none ∧
    (Monitor.loopStep Monitor.ClipboardType.Primary 5 true [] [97, 98]).2 = none ∧
    ((Monitor.loopStep Monitor.ClipboardType.Clipboard 5 true [99]
        [97, 98, 99, 100, 101, 102]).2).isSome = true ∧
    ({ selection := Monitor.ClipboardType.Clipboard,
       content := [97] } : Monitor.ClipboardEvent).content.length > 0 :=
  ⟨(C8_filter_min_size_strict Monitor.ClipboardType.Clipboard 5 true []
      [97, 98, 99, 100, 101, 102]).1 (by decide),
   (C8_filter_min_size_strict Monitor.ClipboardType.Clipboard 2 true []
      [97, 98]).2.1 (by decide),
   (C8_filter_min_size_strict Monitor.ClipboardType.Primary 5 true []
      [97, 98]).2.2.1,
   (C8_filter_min_size_strict Monitor.ClipboardType.Clipboard 5 true [99]
      [97, 98, 99, 100, 101, 102]).2.2.2.1 (by decide),
   (C8_filter_min_size_strict Monitor.ClipboardType.Clipboard 0 true []
      []).2.2.2.2 true (Except.ok [97])
      { selection := Monitor.ClipboardType.Clipboard, content := [97] } (by decide)⟩

/-- C10: immediately after a successful new, for every options value
(including both selection kinds disabled), state() returns Enabled: the
shared run flag is initialized to true at construction and no
construction path clears it. -/
theorem C10_new_starts_enabled (opts : Monitor.ClipboardMonitorOptions)
    (cOk pOk : Bool) (m : Monitor.ClipboardMonitor)
    (h : Monitor.ClipboardMonitor.new opts cOk pOk = Except.ok m) :
    m.state = Monitor.MonitorState.Enabled ∧ m.is_running = true := by
  have hr : m.is_running = true := by
    cases hec : opts.enable_clipboard <;> cases hep : opts.enable_primary <;>
      cases cOk <;> cases pOk <;>
      simp [Monitor.ClipboardMonitor.new, Monitor.build_thread, hec, hep,
        Except.map] at h <;>
      rw [← h]
  exact ⟨by rw [Monitor.ClipboardMonitor.state, hr]; rfl, hr⟩

/-- Witness for C10: a successful construction with both selection kinds
disabled is Enabled. -/
theorem C10_witness :
    ({ is_running := true, clipboard_thread := none, primary_thread := none } :
      Monitor.ClipboardMonitor).state = Monitor.MonitorState.Enabled ∧
    ({ is_running := true, clipboard_thread := none, primary_thread := none } :
      Monitor.ClipboardMonitor).is_running = true :=
  C10_new_starts_enabled
    { load_current := true, enable_clipboard := false, enable_primary := false,
      filter_min_size := 0 }
    true true
    { is_running := true, clipboard_thread := none, primary_thread := none }
    rfl
